import Mathlib

/-!
Shallow embedding of the SQL-template construction and input-validation layer
of the analytics MCP server (files `src/tools/sql-utils.ts`,
`src/tools/get-performance.ts`, `src/tools/anomaly-detection.ts`,
`src/tools/creative-analysis.ts`, `src/settings.ts`), together with theorems
settling the specification claims about that layer.

Strings are modelled as `List Char`; JavaScript string/regex operations used
by the source are translated into executable Lean functions on `List Char`.
-/

set_option maxRecDepth 8192

namespace SqlModel

/-- The backslash character. -/
def backslashChar : Char := '\\'

/-- The single-quote character. -/
def quoteChar : Char := Char.ofNat 39

/-- The percent character (SQL LIKE wildcard). -/
def percentChar : Char := '%'

/-- The underscore character (SQL LIKE wildcard). -/
def underscoreChar : Char := '_'

/-- The backtick character (BigQuery identifier quoting). -/
def backtickChar : Char := Char.ofNat 96

/-- Whitespace characters recognised by JavaScript `trim` and `\s`
(ASCII fragment: space, tab, LF, CR, VT, FF). -/
def jsSpace (c : Char) : Bool :=
  c = ' ' || c = '\t' || c = '\n' || c = '\r' || c = Char.ofNat 11 || c = Char.ofNat 12

/-- JavaScript regex word character `\w`: ASCII letters, digits, underscore. -/
def isWordChar (c : Char) : Bool :=
  c.isAlphanum || c = underscoreChar

/-- JavaScript `String.prototype.trim`: drop leading and trailing whitespace. -/
def jsTrim (l : List Char) : List Char :=
  ((l.dropWhile jsSpace).reverse.dropWhile jsSpace).reverse

/-- JavaScript `String.prototype.replace` with a global single-character
regex: every occurrence of `t` is replaced by `r`. -/
def replaceChar (t : Char) (r : List Char) : List Char → List Char
  | [] => []
  | c :: s => (if c = t then r else [c]) ++ replaceChar t r s

/-- `escapeLikeValue` from `src/tools/sql-utils.ts`: the four sequential
`replace` passes, backslash first, then single quote, then `%`, then `_`. -/
def escapeLikeValue (l : List Char) : List Char :=
  replaceChar underscoreChar [backslashChar, underscoreChar]
    (replaceChar percentChar [backslashChar, percentChar]
      (replaceChar quoteChar [backslashChar, quoteChar]
        (replaceChar backslashChar [backslashChar, backslashChar] l)))

/-- Is `c` one of the four characters `escapeLikeValue` must escape? -/
def isLikeSpecial (c : Char) : Bool :=
  c = backslashChar || c = quoteChar || c = percentChar || c = underscoreChar

/-- Specification-side characterization of LIKE escaping (from the spec's
words): the input with every backslash, single quote, `%` or `_`
prefixed by a single backslash. -/
def escapeLikeValueSpec : List Char → List Char
  | [] => []
  | c :: s => (if isLikeSpecial c then [backslashChar, c] else [c]) ++ escapeLikeValueSpec s

/-- Does `needle` occur in `hay` starting at index `i`? -/
def matchesAt (hay needle : List Char) (i : Nat) : Bool :=
  (hay.drop i).take needle.length = needle

/-- JavaScript `String.prototype.includes`: substring containment. -/
def containsSub (hay needle : List Char) : Bool :=
  (List.range (hay.length + 1)).any (fun i => matchesAt hay needle i)

/-- String-level substring containment. -/
def containsSubStr (hay needle : String) : Bool :=
  containsSub hay.data needle.data

/-- String-level `escapeLikeValue`. -/
def escapeLikeValueStr (s : String) : String :=
  String.mk (escapeLikeValue s.data)

/-- String-level JavaScript `trim`. -/
def jsTrimStr (s : String) : String :=
  String.mk (jsTrim s.data)

/-- JavaScript `val.replace(/'/g, "\\'")`: escape single quotes only, as
`createInClause` does in `src/tools/sql-utils.ts`. -/
def escapeQuotesStr (s : String) : String :=
  String.mk (replaceChar quoteChar [backslashChar, quoteChar] s.data)

/-- JavaScript `Array.prototype.join`. -/
def joinSep (sep : String) : List String → String
  | [] => ""
  | [x] => x
  | x :: y :: xs => x ++ sep ++ joinSep sep (y :: xs)

theorem replaceChar_append (t : Char) (r a b : List Char) :
    replaceChar t r (a ++ b) = replaceChar t r a ++ replaceChar t r b := by
  induction a with
  | nil => rfl
  | cons c cs ih => simp [replaceChar, ih]

theorem escapeLikeValue_cons (c : Char) (s : List Char) :
    escapeLikeValue (c :: s) = escapeLikeValue [c] ++ escapeLikeValue s := by
  show escapeLikeValue ([c] ++ s) = _
  simp only [escapeLikeValue, replaceChar_append]

theorem escapeLikeValue_single (c : Char) :
    escapeLikeValue [c] = if isLikeSpecial c then [backslashChar, c] else [c] := by
  by_cases h1 : c = backslashChar
  · subst h1; rfl
  · by_cases h2 : c = quoteChar
    · subst h2; rfl
    · by_cases h3 : c = percentChar
      · subst h3; rfl
      · by_cases h4 : c = underscoreChar
        · subst h4; rfl
        · simp [escapeLikeValue, replaceChar, isLikeSpecial, h1, h2, h3, h4]

theorem escapeLikeValue_eq_spec (l : List Char) :
    escapeLikeValue l = escapeLikeValueSpec l := by
  induction l with
  | nil => rfl
  | cons c s ih =>
    rw [escapeLikeValue_cons, ih, escapeLikeValue_single]
    rfl

/-- `createCampaignMatchConditions` from `src/tools/sql-utils.ts`: empty
input yields the always-false predicate, otherwise an OR-chain of
case-insensitive LIKE conditions over `escapeLikeValue(name.trim())`. -/
def createCampaignMatchConditions (campaignNames : List String) : String :=
  if campaignNames.isEmpty then "1=0"
  else "(" ++ joinSep " OR " (campaignNames.map (fun name =>
    "LOWER(campaign) LIKE LOWER(\x27%" ++ escapeLikeValueStr (jsTrimStr name) ++ "%\x27)")) ++ ")"

/-- `createInClause` from `src/tools/sql-utils.ts`: empty input yields the
always-false predicate, otherwise `column IN (...)` where each value is
escaped with `val.replace(/'/g, "\\'")` (single quotes only). -/
def createInClause (values : List String) (columnName : String) : String :=
  if values.isEmpty then "1=0"
  else columnName ++ " IN (" ++
    joinSep ", " (values.map (fun val => "\x27" ++ escapeQuotesStr val ++ "\x27")) ++ ")"

/-- Modelled from the spec's words for claim C3 (refinement comparison):
an IN clause whose values are escaped for backslash, quote and the SQL
wildcards via full LIKE escaping, unlike the source's quote-only escape. -/
def createInClauseFullyEscapedSpec (values : List String) (columnName : String) : String :=
  if values.isEmpty then "1=0"
  else columnName ++ " IN (" ++
    joinSep ", " (values.map (fun val => "\x27" ++ escapeLikeValueStr val ++ "\x27")) ++ ")"

/-- `buildDateFilter` from `src/tools/sql-utils.ts`. -/
def buildDateFilter (days : Nat) (tblAlias : Option String) : String :=
  (match tblAlias with | some a => a ++ "." | none => "") ++
    "date >= DATE_SUB(CURRENT_DATE(), INTERVAL " ++ toString days ++ " DAY)"

/-- `buildComparisonDateFilter` from `src/tools/sql-utils.ts`. -/
def buildComparisonDateFilter (currentDays totalDays : Nat) (tblAlias : Option String) : String :=
  (match tblAlias with | some a => a ++ "." | none => "") ++
    "date >= DATE_SUB(CURRENT_DATE(), INTERVAL " ++ toString totalDays ++ " DAY) AND " ++
    (match tblAlias with | some a => a ++ "." | none => "") ++
    "date < DATE_SUB(CURRENT_DATE(), INTERVAL " ++ toString currentDays ++ " DAY)"

/-- Semantics of the predicate string produced by `buildDateFilter days`:
with dates as integers (days), `d` satisfies
`date >= DATE_SUB(CURRENT_DATE(), INTERVAL days DAY)` iff `today - days ≤ d`. -/
def buildDateFilterHolds (days today d : Int) : Prop :=
  today - days ≤ d

/-- Semantics of the predicate string produced by
`buildComparisonDateFilter currentDays totalDays`:
`date >= DATE_SUB(CURRENT_DATE(), INTERVAL totalDays DAY) AND
 date < DATE_SUB(CURRENT_DATE(), INTERVAL currentDays DAY)`. -/
def buildComparisonDateFilterHolds (currentDays totalDays today d : Int) : Prop :=
  today - totalDays ≤ d ∧ d < today - currentDays

/-- `PERFORMANCE_THRESHOLDS.EXCELLENT` from `src/settings.ts` (25.0). -/
def PERFORMANCE_THRESHOLDS_EXCELLENT : ℚ := 25

/-- `PERFORMANCE_THRESHOLDS.GOOD` from `src/settings.ts` (40.0). -/
def PERFORMANCE_THRESHOLDS_GOOD : ℚ := 40

/-- `PERFORMANCE_THRESHOLDS.ACCEPTABLE` from `src/settings.ts` (60.0). -/
def PERFORMANCE_THRESHOLDS_ACCEPTABLE : ℚ := 60

/-- `getPerformanceRatingCase` from `src/tools/sql-utils.ts`: the CASE
expression text (JavaScript renders the threshold numbers 25.0, 40.0, 60.0
as `25`, `40`, `60`). -/
def getPerformanceRatingCase (cpaColumn : String) : String :=
  "CASE\n\t\tWHEN " ++ cpaColumn ++ " <= 25 THEN \x27EXCELLENT\x27\n\t\tWHEN " ++
    cpaColumn ++ " <= 40 THEN \x27GOOD\x27\n\t\tWHEN " ++
    cpaColumn ++ " <= 60 THEN \x27ACCEPTABLE\x27\n\t\tELSE \x27NEEDS_ATTENTION\x27\n\tEND"

/-- Evaluation of the CASE expression produced by `getPerformanceRatingCase`
at a CPA value `v` (SQL CASE takes the first WHEN branch that holds). -/
def performanceRatingCaseEval (v : ℚ) : String :=
  if v ≤ PERFORMANCE_THRESHOLDS_EXCELLENT then "EXCELLENT"
  else if v ≤ PERFORMANCE_THRESHOLDS_GOOD then "GOOD"
  else if v ≤ PERFORMANCE_THRESHOLDS_ACCEPTABLE then "ACCEPTABLE"
  else "NEEDS_ATTENTION"

/-- `safeCpaCalculation` from `src/tools/sql-utils.ts`. -/
def safeCpaCalculation (spendColumn conversionsColumn : String) : String :=
  "SAFE_DIVIDE(" ++ spendColumn ++ ", NULLIF(" ++ conversionsColumn ++ ", 0))"

/-- `safeCtrCalculation` from `src/tools/sql-utils.ts`. -/
def safeCtrCalculation (clicksColumn impressionsColumn : String) : String :=
  "SAFE_DIVIDE(" ++ clicksColumn ++ ", NULLIF(" ++ impressionsColumn ++ ", 0)) * 100"

/-- `safeCvrCalculation` from `src/tools/sql-utils.ts`. -/
def safeCvrCalculation (conversionsColumn clicksColumn : String) : String :=
  "SAFE_DIVIDE(" ++ conversionsColumn ++ ", NULLIF(" ++ clicksColumn ++ ", 0)) * 100"

/-- `validateAndCleanInput` from `src/tools/sql-utils.ts`, string case:
trim, then truncate to 200 characters. -/
def validateAndCleanInputStr (s : String) : String :=
  String.mk ((jsTrim s.data).take 200)

/-- `validateAndCleanInput` from `src/tools/sql-utils.ts`, array case:
truncate to 20 elements and clean each (string elements). -/
def validateAndCleanInputList (l : List String) : List String :=
  (l.take 20).map validateAndCleanInputStr

/-- C5: `escapeLikeValue` escapes backslash first, then single quote, then
`%`, then `_`, and the result equals the input with every occurrence of a
backslash, single quote, `%` or `_` prefixed by a single backslash (so no
escape sequence is double-escaped and, substituted into a SQL LIKE pattern,
the escaped text stands for the literal original value). -/
theorem claim_C5_escapeLikeValue (l : List Char) :
    escapeLikeValue l = escapeLikeValueSpec l :=
  escapeLikeValue_eq_spec l

/-- C6: the CASE expression produced by `getPerformanceRatingCase` assigns
exactly one of the four ordered tiers with thresholds 25, 40, 60: the four
characterizing iffs make the tiers mutually exclusive and exhaustive with
no gap or overlap at the boundaries. -/
theorem claim_C6_performance_rating_tiers (v : ℚ) :
    (performanceRatingCaseEval v = "EXCELLENT" ↔ v ≤ PERFORMANCE_THRESHOLDS_EXCELLENT) ∧
    (performanceRatingCaseEval v = "GOOD" ↔
      PERFORMANCE_THRESHOLDS_EXCELLENT < v ∧ v ≤ PERFORMANCE_THRESHOLDS_GOOD) ∧
    (performanceRatingCaseEval v = "ACCEPTABLE" ↔
      PERFORMANCE_THRESHOLDS_GOOD < v ∧ v ≤ PERFORMANCE_THRESHOLDS_ACCEPTABLE) ∧
    (performanceRatingCaseEval v = "NEEDS_ATTENTION" ↔
      PERFORMANCE_THRESHOLDS_ACCEPTABLE < v) := by
  simp only [performanceRatingCaseEval, PERFORMANCE_THRESHOLDS_EXCELLENT,
    PERFORMANCE_THRESHOLDS_GOOD, PERFORMANCE_THRESHOLDS_ACCEPTABLE]
  split_ifs with h1 h2 h3
  · refine ⟨iff_of_true rfl h1, iff_of_false (by decide) ?_,
      iff_of_false (by decide) ?_, iff_of_false (by decide) ?_⟩
    · rintro ⟨h, -⟩; linarith
    · rintro ⟨h, -⟩; linarith
    · intro h; linarith
  · refine ⟨iff_of_false (by decide) h1, iff_of_true rfl ⟨not_le.mp h1, h2⟩,
      iff_of_false (by decide) ?_, iff_of_false (by decide) ?_⟩
    · rintro ⟨h, -⟩; linarith
    · intro h; linarith
  · refine ⟨iff_of_false (by decide) h1, iff_of_false (by decide) ?_,
      iff_of_true rfl ⟨not_le.mp h2, h3⟩, iff_of_false (by decide) ?_⟩
    · rintro ⟨-, h⟩; exact h2 h
    · intro h; linarith
  · refine ⟨iff_of_false (by decide) h1, iff_of_false (by decide) ?_,
      iff_of_false (by decide) ?_, iff_of_true rfl (not_le.mp h3)⟩
    · rintro ⟨-, h⟩; exact h2 h
    · rintro ⟨-, h⟩; exact h3 h

/-- Witness for C6 at the boundary value 40 (classified GOOD, not
ACCEPTABLE). -/
theorem claim_C6_performance_rating_tiers_witness :
    (performanceRatingCaseEval 40 = "EXCELLENT" ↔ (40 : ℚ) ≤ PERFORMANCE_THRESHOLDS_EXCELLENT) ∧
    (performanceRatingCaseEval 40 = "GOOD" ↔
      PERFORMANCE_THRESHOLDS_EXCELLENT < (40 : ℚ) ∧ (40 : ℚ) ≤ PERFORMANCE_THRESHOLDS_GOOD) ∧
    (performanceRatingCaseEval 40 = "ACCEPTABLE" ↔
      PERFORMANCE_THRESHOLDS_GOOD < (40 : ℚ) ∧ (40 : ℚ) ≤ PERFORMANCE_THRESHOLDS_ACCEPTABLE) ∧
    (performanceRatingCaseEval 40 = "NEEDS_ATTENTION" ↔
      PERFORMANCE_THRESHOLDS_ACCEPTABLE < (40 : ℚ)) :=
  claim_C6_performance_rating_tiers 40

/-- C7: for `currentDays < totalDays`, the predicate built by
`buildComparisonDateFilter` is disjoint from the one built by
`buildDateFilter currentDays`, and selects exactly the dates from
`totalDays` before today up to but strictly before `currentDays` before
today (i.e. the `totalDays` window minus the current window). -/
theorem claim_C7_comparison_window (currentDays totalDays today d : Int)
    (_h : currentDays < totalDays) :
    (¬ (buildDateFilterHolds currentDays today d ∧
        buildComparisonDateFilterHolds currentDays totalDays today d)) ∧
    (buildComparisonDateFilterHolds currentDays totalDays today d ↔
      buildDateFilterHolds totalDays today d ∧ ¬ buildDateFilterHolds currentDays today d) := by
  unfold buildDateFilterHolds buildComparisonDateFilterHolds
  omega

/-- Witness for C7 at `currentDays = 7`, `totalDays = 14`, `today = 0`,
`d = -10`. -/
theorem claim_C7_comparison_window_witness :
    (¬ (buildDateFilterHolds 7 0 (-10) ∧ buildComparisonDateFilterHolds 7 14 0 (-10))) ∧
    (buildComparisonDateFilterHolds 7 14 0 (-10) ↔
      buildDateFilterHolds 14 0 (-10) ∧ ¬ buildDateFilterHolds 7 0 (-10)) :=
  claim_C7_comparison_window 7 14 0 (-10) (by decide)

/-- C3 counterexample: `createInClause` does not escape SQL wildcard or
backslash characters, so the claim that every value interpolated into a
LIKE or IN clause is escaped for backslash, quote and wildcards fails at
the value `%`. -/
theorem claim_C3_counterexample :
    createInClause ["%"] "country" = "country IN (\x27%\x27)" ∧
    createInClauseFullyEscapedSpec ["%"] "country" = "country IN (\x27\\%\x27)" ∧
    createInClause ["%"] "country" ≠ createInClauseFullyEscapedSpec ["%"] "country" := by
  refine ⟨by decide, by decide, by decide⟩

/-- C3 (amended): values interpolated into the LIKE clause by
`createCampaignMatchConditions` are escaped for backslash, single quote and
the SQL wildcards (each interpolated value is `escapeLikeValueSpec` of the
trimmed name), while values interpolated into the IN clause by
`createInClause` are escaped for single quotes only. -/
theorem claim_C3_amended :
    (∀ names : List String, names ≠ [] →
      createCampaignMatchConditions names =
        "(" ++ joinSep " OR " (names.map (fun n =>
          "LOWER(campaign) LIKE LOWER(\x27%" ++
            String.mk (escapeLikeValueSpec (jsTrim n.data)) ++ "%\x27)")) ++ ")") ∧
    (∀ (vs : List String) (col : String), vs ≠ [] →
      createInClause vs col =
        col ++ " IN (" ++ joinSep ", " (vs.map (fun v =>
          "\x27" ++ String.mk (replaceChar quoteChar [backslashChar, quoteChar] v.data) ++
            "\x27")) ++ ")") := by
  constructor
  · intro names hne
    obtain ⟨n0, ns, rfl⟩ : ∃ a l, names = a :: l := by
      cases names with
      | nil => exact absurd rfl hne
      | cons a l => exact ⟨a, l, rfl⟩
    simp only [createCampaignMatchConditions, List.isEmpty_cons, if_false, Bool.false_eq_true]
    have hmap : (n0 :: ns).map (fun name =>
        "LOWER(campaign) LIKE LOWER(\x27%" ++ escapeLikeValueStr (jsTrimStr name) ++ "%\x27)") =
        (n0 :: ns).map (fun n =>
        "LOWER(campaign) LIKE LOWER(\x27%" ++
          String.mk (escapeLikeValueSpec (jsTrim n.data)) ++ "%\x27)") :=
      List.map_congr_left (fun n _ => by
        simp [escapeLikeValueStr, jsTrimStr, escapeLikeValue_eq_spec])
    rw [hmap]
  · intro vs col hne
    obtain ⟨v0, tl, rfl⟩ : ∃ a l, vs = a :: l := by
      cases vs with
      | nil => exact absurd rfl hne
      | cons a l => exact ⟨a, l, rfl⟩
    simp only [createInClause, List.isEmpty_cons, if_false, Bool.false_eq_true]
    rfl

/-- Witness for the amended C3 at concrete inputs. -/
theorem claim_C3_amended_witness :
    (createCampaignMatchConditions ["Promo"] =
      "(" ++ joinSep " OR " ((["Promo"] : List String).map (fun n =>
        "LOWER(campaign) LIKE LOWER(\x27%" ++
          String.mk (escapeLikeValueSpec (jsTrim n.data)) ++ "%\x27)")) ++ ")") ∧
    (createInClause ["US"] "country" =
      "country" ++ " IN (" ++ joinSep ", " ((["US"] : List String).map (fun v =>
        "\x27" ++ String.mk (replaceChar quoteChar [backslashChar, quoteChar] v.data) ++
          "\x27")) ++ ")") :=
  ⟨claim_C3_amended.1 ["Promo"] (by decide), claim_C3_amended.2 ["US"] "country" (by decide)⟩

/-- Case-insensitive match: does `l` start with `w` (with `w` given in
lowercase), folding `l` to lowercase? Models JS regex `i`-flag matching of
a literal keyword. -/
def ciStartsWith (l w : List Char) : Bool :=
  (l.take w.length).map Char.toLower = w

/-- Case-insensitive match of lowercase word `w` at index `i` of `hay`. -/
def ciMatchesAt (hay w : List Char) (i : Nat) : Bool :=
  ciStartsWith (hay.drop i) w

/-- Is the character at index `i` a regex word character (out-of-range
positions count as non-word, as in JS)? -/
def isWordAt (hay : List Char) (i : Nat) : Bool :=
  isWordChar (hay.getD i ' ')

/-- JavaScript regex `\b`: there is a word boundary at position `p` iff
exactly one of the characters around `p` is a word character. -/
def boundaryAt (hay : List Char) (p : Nat) : Bool :=
  (if p = 0 then false else isWordAt hay (p - 1)) != isWordAt hay p

/-- Scan all positions `0..hay.length` for a match. -/
def anyPos (hay : List Char) (f : Nat → Bool) : Bool :=
  (List.range (hay.length + 1)).any f

/-- JS regex `\bw\b` (case-insensitive) matches somewhere in `hay`;
the boundary test on each side is the general `\b`, so it is also correct
for alternatives ending in non-word characters such as `sys.`. -/
def testWordBounded (hay w : List Char) : Bool :=
  anyPos hay (fun i => ciMatchesAt hay w i && boundaryAt hay i && boundaryAt hay (i + w.length))

/-- The DDL/DML keywords of `/(DROP|CREATE|ALTER|INSERT|UPDATE|DELETE|TRUNCATE)/i`. -/
def ddlDmlKeywords : List (List Char) :=
  ["drop".data, "create".data, "alter".data, "insert".data,
   "update".data, "delete".data, "truncate".data]

/-- Dangerous pattern `/;\s*(DROP|CREATE|ALTER|INSERT|UPDATE|DELETE|TRUNCATE)/i`
from `src/settings.ts`: a semicolon, then whitespace, then a DDL/DML keyword
(keywords start with letters, so the greedy `\s*` is equivalent to skipping
the maximal whitespace run). -/
def dangerousSemicolonDdl (hay : List Char) : Bool :=
  anyPos hay (fun i =>
    hay.getD i ' ' = ';' &&
    ddlDmlKeywords.any (fun w => ciStartsWith ((hay.drop (i + 1)).dropWhile jsSpace) w))

/-- Dangerous line-comment pattern from `src/settings.ts` (two hyphens, then
`[^\r\n]*$` with the `m` flag): `--` followed by the rest of its line
(always matches once `--` occurs, since `[^\r\n]*` can extend to the next
line terminator or end of input, where multiline `$` matches). -/
def dangerousLineComment (hay : List Char) : Bool :=
  anyPos hay (fun i =>
    matchesAt hay [Char.ofNat 45, Char.ofNat 45] i &&
    (let rest := (hay.drop (i + 2)).dropWhile (fun c => !(c = '\r' || c = '\n'))
     rest.isEmpty || rest.getD 0 ' ' = '\r' || rest.getD 0 ' ' = '\n'))

/-- Dangerous pattern `/\/\*[\s\S]*?\*\//g` from `src/settings.ts`:
a `/*` later closed by `*/`. -/
def dangerousBlockComment (hay : List Char) : Bool :=
  anyPos hay (fun i => matchesAt hay "/*".data i && containsSub (hay.drop (i + 2)) "*/".data)

/-- `FLEXIBLE_QUERY.DANGEROUS_PATTERNS` from `src/settings.ts`: does any of
the five dangerous patterns match? -/
def dangerousPatternsTest (hay : List Char) : Bool :=
  dangerousSemicolonDdl hay || dangerousLineComment hay || dangerousBlockComment hay ||
    testWordBounded hay "xp_cmdshell".data || testWordBounded hay "sp_executesql".data

/-- `FLEXIBLE_QUERY.MAX_QUERY_LENGTH` from `src/settings.ts`. -/
def FLEXIBLE_QUERY_MAX_QUERY_LENGTH : Nat := 10000

/-- A JavaScript value passed to `validateAndCleanSqlQuery`: a string or
anything else (the function throws on non-strings). -/
inductive JsValue where
  | str (s : String)
  | nonString
deriving DecidableEq

/-- `validateAndCleanSqlQuery` from `src/tools/sql-utils.ts`: reject
non-strings, trim, cap the trimmed length at 10,000 characters, then scan
the trimmed text for the dangerous patterns; return the trimmed text. -/
def validateAndCleanSqlQuery : JsValue → Except String (List Char)
  | .nonString => .error "Query must be a string"
  | .str q =>
    let cleaned := jsTrim q.data
    if cleaned.length > FLEXIBLE_QUERY_MAX_QUERY_LENGTH then
      .error "Query too long - maximum 10000 characters allowed"
    else if dangerousPatternsTest cleaned then
      .error "Query contains potentially dangerous SQL patterns"
    else .ok cleaned

/-- C9: `validateAndCleanSqlQuery` trims before checking the length cap:
any string whose trimmed form is within the cap and matches no dangerous
pattern is accepted and returned trimmed (the raw length, including
surrounding whitespace, is irrelevant); and it fails exactly when the input
is not a string, the trimmed length exceeds the cap, or a dangerous pattern
matches the trimmed text. -/
theorem claim_C9_validateAndCleanSqlQuery (v : JsValue) :
    (∀ s : String, v = .str s →
      (jsTrim s.data).length ≤ FLEXIBLE_QUERY_MAX_QUERY_LENGTH →
      dangerousPatternsTest (jsTrim s.data) = false →
      validateAndCleanSqlQuery v = .ok (jsTrim s.data)) ∧
    ((∃ e, validateAndCleanSqlQuery v = .error e) ↔
      (v = .nonString ∨ ∃ s, v = .str s ∧
        ((jsTrim s.data).length > FLEXIBLE_QUERY_MAX_QUERY_LENGTH ∨
          dangerousPatternsTest (jsTrim s.data) = true))) := by
  cases v with
  | nonString =>
    constructor
    · intro s h
      cases h
    · constructor
      · intro _
        exact Or.inl rfl
      · intro _
        exact ⟨"Query must be a string", rfl⟩
  | str s =>
    simp only [validateAndCleanSqlQuery]
    split_ifs with hlen hdang
    · refine ⟨?_, ?_⟩
      · intro s' hs' hle _
        injection hs' with h
        subst h
        omega
      · exact ⟨fun _ => Or.inr ⟨s, rfl, Or.inl hlen⟩,
          fun _ => ⟨"Query too long - maximum 10000 characters allowed", rfl⟩⟩
    · refine ⟨?_, ?_⟩
      · intro s' hs' _ hd
        injection hs' with h
        subst h
        rw [hdang] at hd
        cases hd
      · exact ⟨fun _ => Or.inr ⟨s, rfl, Or.inr hdang⟩,
          fun _ => ⟨"Query contains potentially dangerous SQL patterns", rfl⟩⟩
    · refine ⟨fun s' hs' _ _ => by injection hs' with h; subst h; rfl, ?_⟩
      constructor
      · rintro ⟨e, he⟩
        exact he.elim
      · rintro (h | ⟨s', hs', hbad⟩)
        · cases h
        · injection hs' with h
          subst h
          rcases hbad with hb | hb
          · omega
          · exact absurd hb (by simpa using hdang)

/-- Witness for C9: a padded query is accepted and returned trimmed. -/
theorem claim_C9_validateAndCleanSqlQuery_witness :
    validateAndCleanSqlQuery (.str "  SELECT 1  ") = .ok (jsTrim "  SELECT 1  ".data) :=
  (claim_C9_validateAndCleanSqlQuery (.str "  SELECT 1  ")).1 "  SELECT 1  " rfl
    (by decide) (by decide)

/-- Word-or-hyphen character class used by the table-reference regex. -/
def wordHyphenChar (c : Char) : Bool :=
  isWordChar c || c = Char.ofNat 45

/-- Parse one backticked identifier part at the head of `l` (regex piece:
backtick, one or more non-backtick characters, backtick); returns the
matched text (backticks included) and the remainder. -/
def parseBacktickPart (l : List Char) : Option (List Char × List Char) :=
  match l with
  | [] => none
  | c :: rest =>
    if c = backtickChar then
      let inner := rest.takeWhile (fun d => !(d = backtickChar))
      let rest2 := rest.drop inner.length
      if inner.isEmpty then none
      else
        match rest2 with
        | [] => none
        | c2 :: rest3 =>
          if c2 = backtickChar then
            some (backtickChar :: (inner ++ [backtickChar]), rest3)
          else none
    else none

/-- Parse the backticked alternative of the table-reference regex at the
head of `l`: three backticked parts separated by dots. -/
def parseBacktickRef (l : List Char) : Option (List Char × List Char) :=
  match parseBacktickPart l with
  | none => none
  | some (p1, r1) =>
    match r1 with
    | [] => none
    | c :: r1b =>
      if c = '.' then
        match parseBacktickPart r1b with
        | none => none
        | some (p2, r2) =>
          match r2 with
          | [] => none
          | c2 :: r2b =>
            if c2 = '.' then
              match parseBacktickPart r2b with
              | none => none
              | some (p3, r3) => some (p1 ++ '.' :: p2 ++ '.' :: p3, r3)
            else none
      else none

/-- Parse the plain alternative of the table-reference regex at the head of
`l`: three nonempty word-or-hyphen runs separated by dots (the greedy runs
are maximal, which is deterministic because the dot is not in the class). -/
def parseWordRef (l : List Char) : Option (List Char × List Char) :=
  let r1 := l.takeWhile wordHyphenChar
  if r1.isEmpty then none
  else
    match l.drop r1.length with
    | '.' :: l2 =>
      let r2 := l2.takeWhile wordHyphenChar
      if r2.isEmpty then none
      else
        match l2.drop r2.length with
        | '.' :: l4 =>
          let r3 := l4.takeWhile wordHyphenChar
          if r3.isEmpty then none
          else some (r1 ++ '.' :: r2 ++ '.' :: r3, l4.drop r3.length)
        | _ => none
    | _ => none

/-- One pass of the JavaScript global `match` with the table-reference
regex: at each position try the backticked alternative, then the plain one;
on a match, emit it and continue after it. `fuel` bounds the recursion and
is initialised to the text length, which each step strictly decreases. -/
def scanTableRefs : Nat → List Char → List (List Char)
  | 0, _ => []
  | _, [] => []
  | Nat.succ fuel, c :: rest =>
    match parseBacktickRef (c :: rest) with
    | some (m, r) => m :: scanTableRefs fuel r
    | none =>
      match parseWordRef (c :: rest) with
      | some (m, r) => m :: scanTableRefs fuel r
      | none => scanTableRefs fuel rest

/-- All `database.schema.table`-shaped tokens of the text, as extracted by
`registerFlexibleQueryTool` in `src/tools/get-performance.ts`. -/
def extractTableRefs (l : List Char) : List (List Char) :=
  scanTableRefs l.length l

/-- `BIGQUERY_CONFIG.BLENDED_SUMMARY_TABLE` from `src/settings.ts`. -/
def BLENDED_SUMMARY_TABLE : String :=
  "\x60exemplary-terra-463404-m1.linktree_analytics.blended_summary\x60"

/-- The backticked impression-share fact table, as listed in the
`authorizedTables` array of `registerFlexibleQueryTool`. -/
def IMPRESSION_SHARE_TABLE : String :=
  "\x60exemplary-terra-463404-m1.linktree_analytics.impression_share_report\x60"

/-- The `authorizedTables` array from `registerFlexibleQueryTool`. -/
def authorizedTables : List String :=
  ["exemplary-terra-463404-m1.linktree_analytics.blended_summary",
   "\x60exemplary-terra-463404-m1.linktree_analytics.blended_summary\x60",
   "exemplary-terra-463404-m1.linktree_analytics.impression_share_report",
   "\x60exemplary-terra-463404-m1.linktree_analytics.impression_share_report\x60"]

/-- Strip backticks from an authorized table name (the JS replace of every
backtick by the empty string). -/
def stripBackticks (s : String) : String :=
  String.mk (replaceChar backtickChar [] s.data)

/-- The `unauthorizedTables` filter from `registerFlexibleQueryTool`:
extracted references that contain no authorized identifier (backticks
stripped) as a substring. -/
def unauthorizedTables (cleaned : List Char) : List (List Char) :=
  (extractTableRefs cleaned).filter (fun t =>
    !(authorizedTables.any (fun a => containsSub t (stripBackticks a).data)))

/-- Security check `/\b(DROP|CREATE|ALTER|INSERT|UPDATE|DELETE|TRUNCATE)\b/i`. -/
def testDdlDml (hay : List Char) : Bool :=
  ddlDmlKeywords.any (fun w => testWordBounded hay w)

/-- Alternatives of `/\b(INFORMATION_SCHEMA|mysql|pg_|sys\.)\b/i`. -/
def systemSchemaWords : List (List Char) :=
  ["information_schema".data, "mysql".data, "pg_".data, "sys.".data]

/-- Security check for system-schema access. -/
def testSystemSchema (hay : List Char) : Bool :=
  systemSchemaWords.any (fun w => testWordBounded hay w)

/-- Alternatives of `/\b(LOAD|OUTFILE|DUMPFILE|EXPORT)\b/i`. -/
def fileOpWords : List (List Char) :=
  ["load".data, "outfile".data, "dumpfile".data, "export".data]

/-- Security check for file operations. -/
def testFileOps (hay : List Char) : Bool :=
  fileOpWords.any (fun w => testWordBounded hay w)

/-- `hasJoin`: `/\bJOIN\b/i`. -/
def testHasJoin (hay : List Char) : Bool :=
  testWordBounded hay "join".data

/-- `hasLimit`: `/\bLIMIT\s+\d+\b/i` — the keyword LIMIT at a word
boundary, one or more whitespace characters, one or more digits, then a
word boundary (the greedy runs are maximal, deterministically). -/
def testHasLimit (hay : List Char) : Bool :=
  anyPos hay (fun i =>
    boundaryAt hay i && ciMatchesAt hay "limit".data i &&
    (let afterKw := hay.drop (i + 5)
     let sp := afterKw.takeWhile jsSpace
     let rest := afterKw.drop sp.length
     let ds := rest.takeWhile Char.isDigit
     !sp.isEmpty && !ds.isEmpty && !(isWordAt rest ds.length)))

/-- `hasCount`: `/\bCOUNT\s*\(\s*[*\w]+\s*\)/i`. -/
def testHasCount (hay : List Char) : Bool :=
  anyPos hay (fun i =>
    boundaryAt hay i && ciMatchesAt hay "count".data i &&
    (let r1 := (hay.drop (i + 5)).dropWhile jsSpace
     r1.getD 0 ' ' = '(' &&
     (let r3 := (r1.drop 1).dropWhile jsSpace
      let run := r3.takeWhile (fun c => c = '*' || isWordChar c)
      !run.isEmpty && ((r3.drop run.length).dropWhile jsSpace).getD 0 ' ' = ')')))

/-- The aggregate keywords of `/\b(SUM|AVG|MAX|MIN|COUNT)\s*\(/i`. -/
def aggKeywords : List (List Char) :=
  ["sum".data, "avg".data, "max".data, "min".data, "count".data]

/-- `hasAggregation`: `/\b(SUM|AVG|MAX|MIN|COUNT)\s*\(/i`. -/
def testHasAggregation (hay : List Char) : Bool :=
  anyPos hay (fun i => aggKeywords.any (fun w =>
    boundaryAt hay i && ciMatchesAt hay w i &&
    ((hay.drop (i + w.length)).dropWhile jsSpace).getD 0 ' ' = '('))

/-- Rejection text for DDL/DML operations (`registerFlexibleQueryTool`). -/
def msgDdlDml : List Char :=
  ("Security Error: DDL/DML operations are not allowed\n\nQuery rejected for security reasons. Please use the specialized template tools or modify your query to comply with security requirements.").data

/-- Rejection text for system-schema access. -/
def msgSystemSchema : List Char :=
  ("Security Error: System schema access is not allowed\n\nQuery rejected for security reasons. Please use the specialized template tools or modify your query to comply with security requirements.").data

/-- Rejection text for file operations. -/
def msgFileOps : List Char :=
  ("Security Error: File operations are not allowed\n\nQuery rejected for security reasons. Please use the specialized template tools or modify your query to comply with security requirements.").data

/-- Rejection text for unauthorized table references; the detected tokens
are interpolated. -/
def msgUnauthorized (unauth : List (List Char)) : List Char :=
  ("Security Error: Only the specified analytics tables are allowed\n\nUnauthorized tables detected: ").data ++
    (joinSep ", " (unauth.map String.mk)).data ++
    ("\nAllowed tables: " ++ BLENDED_SUMMARY_TABLE ++ ", " ++ IMPRESSION_SHARE_TABLE ++
      "\nQuery rejected for security reasons. Please use the specialized template tools or modify your query to comply with security requirements.").data

/-- Rejection text for JOINs between tables. -/
def msgJoin : List Char :=
  ("Security Error: JOINs between different tables are not allowed\n\nAnalyze each table separately using the specialized tools instead. Query rejected for security reasons.").data

/-- Rejection text for a missing LIMIT clause and missing aggregation. -/
def msgLimit : List Char :=
  ("Query Validation Error: Queries must include a LIMIT clause to prevent resource exhaustion.\n\nExample: Add \x27LIMIT 100\x27 to your query, or use COUNT(*) for aggregations.").data

/-- Rejection text for a query not referencing an authorized table. -/
def msgTableRef : List Char :=
  ("Table Reference Error: Query must reference one of the authorized tables: " ++
    BLENDED_SUMMARY_TABLE ++ " or " ++ IMPRESSION_SHARE_TABLE ++
    "\n\nPlease update your query to use the correct table reference.").data

/-- Wrapper for errors thrown by `validateAndCleanSqlQuery` (the handler
catches them and returns this text). -/
def msgInputValidation (m : List Char) : List Char :=
  ("Input Validation Error: ").data ++ m ++
    ("\n\nPlease ensure your query follows proper SQL syntax and security guidelines.").data

/-- The validation pipeline of the `flexible_query` tool
(`registerFlexibleQueryTool`, `src/tools/get-performance.ts`):
`Except.error text` models returning the rejection text with no network
call made; `Except.ok cleaned` models forwarding `cleaned` to the webhook
transport. -/
def flexibleQueryValidation (query : List Char) : Except (List Char) (List Char) :=
  match validateAndCleanSqlQuery (.str (String.mk query)) with
  | .error m => .error (msgInputValidation m.data)
  | .ok cleaned =>
    if testDdlDml cleaned = true then .error msgDdlDml
    else if testSystemSchema cleaned = true then .error msgSystemSchema
    else if testFileOps cleaned = true then .error msgFileOps
    else if unauthorizedTables cleaned ≠ [] then
      .error (msgUnauthorized (unauthorizedTables cleaned))
    else if testHasJoin cleaned = true ∧ 1 < (extractTableRefs cleaned).length then
      .error msgJoin
    else if testHasLimit cleaned = false ∧ testHasCount cleaned = false ∧
        testHasAggregation cleaned = false then
      .error msgLimit
    else if authorizedTables.any (fun a => containsSub cleaned a.data) = false then
      .error msgTableRef
    else .ok cleaned

theorem mkData (l : List Char) : (String.mk l).data = l := rfl

theorem validateAndCleanSqlQuery_ok_eq (s : String) (c : List Char)
    (h : validateAndCleanSqlQuery (.str s) = .ok c) : c = jsTrim s.data := by
  simp only [validateAndCleanSqlQuery] at h
  split_ifs at h
  all_goals cases h
  all_goals rfl

theorem msgInputValidation_ne_msgJoin (m : List Char) :
    msgInputValidation m ≠ msgJoin := by
  intro h
  have h2 : 0 < (("Input Validation Error: ").data).length := by decide
  have h1 : 0 < ((("Input Validation Error: ").data ++ m)).length := by
    rw [List.length_append]
    omega
  have h0 := congrArg (fun l => l.getD 0 ' ') h
  simp only [msgInputValidation] at h0
  rw [List.getD_append _ _ _ 0 h1, List.getD_append _ _ _ 0 h2] at h0
  exact absurd h0 (by decide)

theorem msgUnauthorized_ne_msgJoin (u : List (List Char)) :
    msgUnauthorized u ≠ msgJoin := by
  intro h
  have h2 : 16 <
      (("Security Error: Only the specified analytics tables are allowed\n\nUnauthorized tables detected: ").data).length := by
    decide
  have h1 : 16 <
      ((("Security Error: Only the specified analytics tables are allowed\n\nUnauthorized tables detected: ").data ++
        (joinSep ", " (u.map String.mk)).data)).length := by
    rw [List.length_append]
    omega
  have h0 := congrArg (fun l => l.getD 16 ' ') h
  simp only [msgUnauthorized] at h0
  rw [List.getD_append _ _ _ 16 h1, List.getD_append _ _ _ 16 h2] at h0
  exact absurd h0 (by decide)

/-- Modelled from the spec for C1: the candidate references a table outside
the two authorized identifiers — some extracted `database.schema.table`
token, backticks stripped, differs from both authorized identifiers. -/
def referencesOutsideAuthorized (q : List Char) : Bool :=
  (extractTableRefs (jsTrim q)).any (fun t =>
    !(replaceChar backtickChar [] t =
        ("exemplary-terra-463404-m1.linktree_analytics.blended_summary").data ||
      replaceChar backtickChar [] t =
        ("exemplary-terra-463404-m1.linktree_analytics.impression_share_report").data))

/-- Modelled from the spec for C2: the only table reference of the
candidate (backticks stripped) is the authorized blended-summary table. -/
def onlyRefIsBlendedSummary (q : List Char) : Bool :=
  !(extractTableRefs (jsTrim q)).isEmpty &&
  (extractTableRefs (jsTrim q)).all (fun t =>
    replaceChar backtickChar [] t =
      ("exemplary-terra-463404-m1.linktree_analytics.blended_summary").data)

/-- A raw candidate that references the non-authorized table
`...blended_summary_2` (the whitelist check only requires an authorized
identifier to occur as a substring of the token). -/
def c1Query : String :=
  "SELECT * FROM exemplary-terra-463404-m1.linktree_analytics.blended_summary_2 LIMIT 5"

/-- C1 counterexample: a candidate that references a table outside the two
authorized identifiers (in the spec sense) is nevertheless forwarded to the
webhook transport, because the whitelist accepts any token containing an
authorized identifier as a substring. -/
theorem claim_C1_counterexample :
    referencesOutsideAuthorized c1Query.data = true ∧
    flexibleQueryValidation c1Query.data = .ok (jsTrim c1Query.data) :=
  ⟨rfl, rfl⟩

/-- C1 (amended): the `flexible_query` tool returns a rejection text and
never forwards the candidate when the candidate (trimmed) contains a
DDL/DML keyword, or some extracted table token does not contain an
authorized identifier as a substring, or a JOIN keyword occurs with more
than one extracted table token, or the candidate has neither a LIMIT
clause nor a COUNT nor an aggregate call. -/
theorem claim_C1_amended_rejections (q : List Char)
    (hbad : testDdlDml (jsTrim q) = true ∨
      unauthorizedTables (jsTrim q) ≠ [] ∨
      (testHasJoin (jsTrim q) = true ∧ 1 < (extractTableRefs (jsTrim q)).length) ∨
      (testHasLimit (jsTrim q) = false ∧ testHasCount (jsTrim q) = false ∧
        testHasAggregation (jsTrim q) = false)) :
    ∃ msg, flexibleQueryValidation q = .error msg := by
  unfold flexibleQueryValidation
  cases hv : validateAndCleanSqlQuery (.str (String.mk q)) with
  | error m =>
    exact ⟨_, rfl⟩
  | ok cleaned =>
    have hc := validateAndCleanSqlQuery_ok_eq _ _ hv
    rw [mkData] at hc
    subst hc
    dsimp only
    split_ifs with h1 h2 h3 h4 h5 h6 h7
    · exact ⟨_, rfl⟩
    · exact ⟨_, rfl⟩
    · exact ⟨_, rfl⟩
    · exact ⟨_, rfl⟩
    · exact ⟨_, rfl⟩
    · exact ⟨_, rfl⟩
    · exact ⟨_, rfl⟩
    · exfalso
      rcases hbad with hb | hb | hb | hb
      · exact h1 hb
      · exact h4 hb
      · exact h5 hb
      · exact h6 hb

/-- Witness for the amended C1: a DDL candidate is rejected. -/
theorem claim_C1_amended_rejections_witness :
    testDdlDml (jsTrim ("DROP TABLE t" : String).data) = true ∧
    (∃ msg, flexibleQueryValidation ("DROP TABLE t" : String).data = .error msg) :=
  ⟨rfl, claim_C1_amended_rejections ("DROP TABLE t" : String).data (Or.inl rfl)⟩

/-- A candidate whose only table reference is the authorized
blended-summary table and which has a LIMIT clause, but which contains the
word UPDATE inside a string literal. -/
def c2BadQuery : String :=
  "SELECT \x27UPDATE\x27 AS note FROM \x60exemplary-terra-463404-m1.linktree_analytics.blended_summary\x60 LIMIT 5"

/-- C2 counterexample: a candidate whose only table reference is the
authorized blended-summary table and which contains a LIMIT clause is
still rejected (the DDL/DML keyword scan also fires inside string
literals), so validation does not succeed for every such candidate. -/
theorem claim_C2_counterexample :
    onlyRefIsBlendedSummary c2BadQuery.data = true ∧
    testHasLimit (jsTrim c2BadQuery.data) = true ∧
    flexibleQueryValidation c2BadQuery.data = .error msgDdlDml :=
  ⟨rfl, rfl, rfl⟩

/-- C2 (amended): a candidate whose trimmed text is within the length cap,
matches no dangerous pattern and no DDL/DML, system-schema or file-op
keyword, whose extracted table tokens all contain the blended-summary
identifier, which has no cross-table JOIN, which contains a LIMIT clause
and which contains the blended-summary identifier verbatim, passes the
whole pipeline and is forwarded (trimmed). -/
theorem claim_C2_amended_acceptance (q : List Char)
    (hlen : (jsTrim q).length ≤ FLEXIBLE_QUERY_MAX_QUERY_LENGTH)
    (hdang : dangerousPatternsTest (jsTrim q) = false)
    (hddl : testDdlDml (jsTrim q) = false)
    (hsys : testSystemSchema (jsTrim q) = false)
    (hfile : testFileOps (jsTrim q) = false)
    (hrefs : ∀ t ∈ extractTableRefs (jsTrim q),
      containsSub t ("exemplary-terra-463404-m1.linktree_analytics.blended_summary").data = true)
    (hjoin : testHasJoin (jsTrim q) = false ∨ (extractTableRefs (jsTrim q)).length ≤ 1)
    (hlimit : testHasLimit (jsTrim q) = true)
    (htbl : containsSub (jsTrim q)
      ("exemplary-terra-463404-m1.linktree_analytics.blended_summary").data = true) :
    flexibleQueryValidation q = .ok (jsTrim q) := by
  have hval : validateAndCleanSqlQuery (.str (String.mk q)) = .ok (jsTrim q) := by
    unfold validateAndCleanSqlQuery
    dsimp only
    rw [if_neg (Nat.not_lt.mpr hlen), if_neg (by simp [hdang])]
  have hunauth : unauthorizedTables (jsTrim q) = [] := by
    apply List.filter_eq_nil_iff.mpr
    intro t ht
    have hx := hrefs t ht
    have hany : (authorizedTables.any fun a => containsSub t (stripBackticks a).data) = true := by
      apply List.any_eq_true.mpr
      refine ⟨"exemplary-terra-463404-m1.linktree_analytics.blended_summary",
        by simp [authorizedTables], ?_⟩
      exact hx
    simp [hany]
  have hvalid : authorizedTables.any (fun a => containsSub (jsTrim q) a.data) = true := by
    apply List.any_eq_true.mpr
    exact ⟨"exemplary-terra-463404-m1.linktree_analytics.blended_summary",
      by simp [authorizedTables], htbl⟩
  unfold flexibleQueryValidation
  rw [hval]
  dsimp only
  rw [if_neg (by simp [hddl]), if_neg (by simp [hsys]), if_neg (by simp [hfile]),
    if_neg (by simp [hunauth])]
  rw [if_neg ?hj]
  case hj =>
    rintro ⟨hj1, hj2⟩
    rcases hjoin with hj | hj
    · rw [hj] at hj1
      cases hj1
    · omega
  rw [if_neg ?hl]
  case hl =>
    rintro ⟨hl1, -, -⟩
    rw [hlimit] at hl1
    cases hl1
  rw [if_neg (by simp [hvalid])]

/-- A compliant candidate for the amended C2. -/
def c2GoodQuery : String :=
  "SELECT platform, SUM(spend) AS total FROM \x60exemplary-terra-463404-m1.linktree_analytics.blended_summary\x60 GROUP BY platform LIMIT 10"

/-- Witness for the amended C2: the compliant candidate is forwarded. -/
theorem claim_C2_amended_acceptance_witness :
    flexibleQueryValidation c2GoodQuery.data = .ok (jsTrim c2GoodQuery.data) :=
  claim_C2_amended_acceptance c2GoodQuery.data (by decide) (by decide) (by decide)
    (by decide) (by decide) (by decide) (Or.inr (by decide)) (by decide) (by decide)

/-- A candidate with a JOIN keyword but only one extracted table token
(a CTE self-join through aliases). -/
def c10SelfJoinQuery : String :=
  "WITH t AS (SELECT campaign, spend FROM \x60exemplary-terra-463404-m1.linktree_analytics.blended_summary\x60) SELECT * FROM t JOIN t t2 ON t.campaign = t2.campaign LIMIT 10"

/-- A candidate joining the two authorized tables (two extracted tokens). -/
def c10TwoTableJoinQuery : String :=
  "SELECT * FROM \x60exemplary-terra-463404-m1.linktree_analytics.blended_summary\x60 a JOIN \x60exemplary-terra-463404-m1.linktree_analytics.impression_share_report\x60 b ON a.date = b.date LIMIT 5"

/-- C10: the JOIN restriction rejects a candidate only when a JOIN keyword
is present and more than one `database.schema.table` token is extracted;
a candidate containing JOIN with exactly one extracted token (a CTE
self-join) passes the JOIN check and is forwarded. -/
theorem claim_C10_join_restriction :
    (∀ q : List Char, flexibleQueryValidation q = .error msgJoin →
      testHasJoin (jsTrim q) = true ∧ 1 < (extractTableRefs (jsTrim q)).length) ∧
    (testHasJoin (jsTrim c10SelfJoinQuery.data) = true ∧
      (extractTableRefs (jsTrim c10SelfJoinQuery.data)).length = 1 ∧
      flexibleQueryValidation c10SelfJoinQuery.data = .ok (jsTrim c10SelfJoinQuery.data)) := by
  constructor
  · intro q h
    unfold flexibleQueryValidation at h
    cases hv : validateAndCleanSqlQuery (.str (String.mk q)) with
    | error m =>
      rw [hv] at h
      try dsimp only at h
      injection h with h
      exact absurd h (msgInputValidation_ne_msgJoin m.data)
    | ok cleaned =>
      have hc := validateAndCleanSqlQuery_ok_eq _ _ hv
      rw [mkData] at hc
      subst hc
      rw [hv] at h
      try dsimp only at h
      split_ifs at h with h1 h2 h3 h4 h5 h6 h7
      all_goals try exact h5
      all_goals try (injection h with h)
      all_goals try (exact absurd h (msgUnauthorized_ne_msgJoin _))
      all_goals exact absurd h (by decide)
  · exact ⟨rfl, rfl, rfl⟩

/-- Witness for C10: a two-table JOIN candidate is rejected with the JOIN
error, and the theorem recovers that a JOIN keyword and more than one
extracted token were present. -/
theorem claim_C10_join_restriction_witness :
    flexibleQueryValidation c10TwoTableJoinQuery.data = .error msgJoin ∧
    (testHasJoin (jsTrim c10TwoTableJoinQuery.data) = true ∧
      1 < (extractTableRefs (jsTrim c10TwoTableJoinQuery.data)).length) :=
  ⟨rfl, claim_C10_join_restriction.1 c10TwoTableJoinQuery.data rfl⟩

/-- The `date_range` enum of the creative-analysis tool. -/
inductive DateRange where
  | d7
  | d14
  | d30
deriving DecidableEq

/-- The day count interpolated for a `date_range`
(`date_range === "7d" ? "7" : date_range === "14d" ? "14" : "30"`). -/
def dateRangeDaysStr : DateRange → String
  | .d7 => "7"
  | .d14 => "14"
  | .d30 => "30"

/-- The `sort_by` enum of the creative-analysis tool. -/
inductive SortBy where
  | cpa
  | spend
  | conversions
deriving DecidableEq

/-- The text interpolated for a `sort_by` value. -/
def sortByStr : SortBy → String
  | .cpa => "cpa"
  | .spend => "spend"
  | .conversions => "conversions"

/-- `JSON.stringify` for an array of strings containing no characters that
JSON needs to escape (true of the country codes this tool receives). -/
def jsonStringifyArr (l : List String) : String :=
  "[" ++ joinSep "," (l.map (fun s => "\"" ++ s ++ "\"")) ++ "]"


/-- Segments of the `creative_analysis` SQL template
(`registerCreativeAnalysisTool`, `src/tools/creative-analysis.ts`), split at
the interpolation points and at the UNION ALL boundaries of the final
query; `creativeAnalysisQuery` concatenates them in source order. -/
def creativeSql1 : String :=
  "\n-- Meta Creative Performance Analysis\n-- Summarized creative insights to avoid context overload\n-- Focus on concept patterns and performance distribution\n\nWITH \nconfig AS (\n  SELECT\n    "

def creativeSql2 : String := " as analysis_days,\n    "

def creativeSql3 : String := " as target_countries,\n    "

def creativeSql4 : String := " as min_spend_threshold"

def creativeSql5 : String := ",\n    \x27"

def creativeSql6 : String := "\x27 as sort_metric\n),\n\n"

def creativeSql7 : String :=
  "creative_data AS (\n  SELECT\n    bd.ad_id,\n    bd.ad_name,\n    bd.country,\n    -- Parse Meta creative components\n    CASE \n      WHEN bd.ad_name IS NOT NULL THEN\n        TRIM(SPLIT(bd.ad_name, \x27 // \x27)[SAFE_OFFSET(0)])\n      ELSE \x27Unknown_Concept\x27\n    END as creative_concept,\n    CASE \n      WHEN bd.ad_name IS NOT NULL THEN\n        TRIM(SPLIT(bd.ad_name, \x27 // \x27)[SAFE_OFFSET(2)])\n      ELSE NULL\n    END as creative_format,\n    CASE \n      WHEN bd.ad_name IS NOT NULL THEN\n        TRIM(SPLIT(bd.ad_name, \x27 // \x27)[SAFE_OFFSET(3)])\n      ELSE NULL\n    END as creative_creator,\n"

def creativeSql8 : String :=
  "    SUM(bd.spend) as total_spend,\n    SUM(bd.conversions) as total_conversions,\n    SAFE_DIVIDE(SUM(bd.spend), NULLIF(SUM(bd.conversions), 0)) as cpa,\n    SAFE_DIVIDE(SUM(bd.clicks), NULLIF(SUM(bd.impressions), 0)) * 100 as ctr,\n    SAFE_DIVIDE(SUM(bd.conversions), NULLIF(SUM(bd.clicks), 0)) * 100 as cvr\n  FROM \x60exemplary-terra-463404-m1.linktree_analytics.blended_summary\x60 bd\n  WHERE \n    bd.date >= DATE_SUB(CURRENT_DATE(), INTERVAL (SELECT analysis_days FROM config) DAY)\n    AND bd.platform = \x27Meta\x27\n    AND bd.country IN UNNEST((SELECT target_countries FROM config))\n    AND bd.spend > 0\n  GROUP BY \n    bd.ad_id, bd.ad_name, bd.country, creative_concept, creative_format, creative_creator\n  HAVING \n    total_spend >= (SELECT min_spend_threshold FROM config)\n    AND total_conversions >= 2\n),\n\n"

def creativeSql9 : String :=
  "concept_summary AS (\n  SELECT\n    creative_concept,\n    COUNT(*) as ad_count,\n    SUM(total_spend) as concept_spend,\n    SUM(total_conversions) as concept_conversions,\n    SAFE_DIVIDE(SUM(total_spend), NULLIF(SUM(total_conversions), 0)) as concept_cpa,\n    AVG(ctr) as avg_ctr,\n    AVG(cvr) as avg_cvr,\n    -- Performance classification\n"

def creativeSql10 : String :=
  "    CASE\n      WHEN SAFE_DIVIDE(SUM(total_spend), NULLIF(SUM(total_conversions), 0)) <= 25 THEN \x27EXCELLENT\x27\n      WHEN SAFE_DIVIDE(SUM(total_spend), NULLIF(SUM(total_conversions), 0)) <= 40 THEN \x27GOOD\x27\n      WHEN SAFE_DIVIDE(SUM(total_spend), NULLIF(SUM(total_conversions), 0)) <= 60 THEN \x27ACCEPTABLE\x27\n      ELSE \x27NEEDS_ATTENTION\x27\n    END as performance_tier\n  FROM creative_data\n  WHERE creative_concept IS NOT NULL\n  GROUP BY creative_concept\n  HAVING concept_spend >= (SELECT min_spend_threshold FROM config) * 2\n),\n\n"

def creativeSql11 : String :=
  "top_performers AS (\n  SELECT\n    ad_name,\n    creative_concept,\n    creative_format,\n    creative_creator,\n    country,\n    total_spend,\n    total_conversions,\n    cpa,\n    ctr,\n    cvr,\n    -- Rank by selected metric\n    ROW_NUMBER() OVER (\n      ORDER BY \n        CASE \x27"

def creativeSql12 : String :=
  "\x27\n          WHEN \x27cpa\x27 THEN cpa\n          WHEN \x27spend\x27 THEN -total_spend\n          WHEN \x27conversions\x27 THEN -total_conversions\n        END\n    ) as performance_rank\n  FROM creative_data\n  ORDER BY performance_rank\n  LIMIT 10\n),\n\n"

def creativeSql13 : String :=
  "performance_distribution AS (\n  SELECT\n    performance_tier,\n    COUNT(*) as concept_count,\n    SUM(concept_spend) as tier_spend,\n    AVG(concept_cpa) as avg_tier_cpa\n  FROM concept_summary\n  GROUP BY performance_tier\n)\n\n"

def creativeSql14 : String :=
  "-- Output creative analysis summary\nSELECT \n  \x27CREATIVE_OVERVIEW\x27 as section,\n  JSON_OBJECT(\n    \x27analysis_period\x27, CONCAT((SELECT analysis_days FROM config), \x27 days\x27),\n    \x27countries_analyzed\x27, (SELECT target_countries FROM config),\n    \x27min_spend_threshold\x27, (SELECT min_spend_threshold FROM config),\n    \x27sort_criteria\x27, (SELECT sort_metric FROM config),\n    \x27total_creatives_analyzed\x27, (SELECT COUNT(*) FROM creative_data),\n    \x27total_concepts\x27, (SELECT COUNT(*) FROM concept_summary),\n    \x27performance_distribution\x27, ARRAY_AGG(JSON_OBJECT(\n      \x27tier\x27, performance_tier,\n      \x27concept_count\x27, concept_count,\n      \x27total_spend\x27, ROUND(tier_spend, 2),\n      \x27avg_cpa\x27, ROUND(avg_tier_cpa, 2)\n    ))\n  ) as summary_data\nFROM performance_distribution\n\n"

def creativeSql15 : String := "UNION ALL"

def creativeSql16 : String := "\n\n"

def creativeSql17 : String :=
  "SELECT \n  \x27TOP_CONCEPTS\x27 as section,\n  JSON_OBJECT(\n    \x27best_performing_concepts\x27, ARRAY_AGG(JSON_OBJECT(\n      \x27concept\x27, creative_concept,\n      \x27ad_count\x27, ad_count,\n      \x27total_spend\x27, ROUND(concept_spend, 2),\n      \x27conversions\x27, concept_conversions,\n      \x27cpa\x27, ROUND(concept_cpa, 2),\n      \x27avg_ctr\x27, ROUND(avg_ctr, 2),\n      \x27avg_cvr\x27, ROUND(avg_cvr, 2),\n      \x27performance_tier\x27, performance_tier\n    ))\n  ) as summary_data\nFROM concept_summary\n"

def creativeSql18 : String := "ORDER BY concept_cpa ASC\nLIMIT 8"

def creativeSql19 : String :=
  "SELECT \n  \x27TOP_INDIVIDUAL_ADS\x27 as section,\n  JSON_OBJECT(\n    \x27top_performers\x27, ARRAY_AGG(JSON_OBJECT(\n      \x27ad_name\x27, ad_name,\n      \x27concept\x27, creative_concept,\n      \x27format\x27, creative_format,\n      \x27creator\x27, creative_creator,\n      \x27country\x27, country,\n      \x27spend\x27, ROUND(total_spend, 2),\n      \x27conversions\x27, total_conversions,\n      \x27cpa\x27, ROUND(cpa, 2),\n      \x27ctr\x27, ROUND(ctr, 2),\n      \x27cvr\x27, ROUND(cvr, 2),\n      \x27rank\x27, performance_rank\n    ))\n  ) as summary_data\nFROM top_performers\n\nORDER BY section;\n"

/-- The SQL text assembled by the `creative_analysis` tool
(`registerCreativeAnalysisTool`, `src/tools/creative-analysis.ts`): the
template literal with `date_range`, `countries`, `min_spend` and `sort_by`
interpolated directly — `min_spend` is interpolated with no clamping
(integer inputs modelled by `Nat`). -/
def creativeAnalysisQuery (date_range : DateRange) (countries : List String)
    (min_spend : Nat) (sort_by : SortBy) : String :=
  creativeSql1 ++ dateRangeDaysStr date_range ++ creativeSql2 ++
    jsonStringifyArr countries ++ creativeSql3 ++ toString min_spend ++
    creativeSql4 ++ creativeSql5 ++ sortByStr sort_by ++ creativeSql6 ++
    creativeSql7 ++ creativeSql8 ++ creativeSql9 ++ creativeSql10 ++
    creativeSql11 ++ sortByStr sort_by ++ creativeSql12 ++ creativeSql13 ++
    creativeSql14 ++ creativeSql15 ++ creativeSql16 ++ creativeSql17 ++
    creativeSql18 ++ creativeSql16 ++ creativeSql15 ++ creativeSql16 ++
    creativeSql19

/-- The clamp `Math.max(100, Math.min(min_impact_threshold, 50000))`
applied by `registerAnomalyDetectionTool` (`src/tools/anomaly-detection.ts`)
before interpolating the caller-supplied `min_impact_threshold`. -/
def safeMinImpact (minImpactThreshold : Int) : Int :=
  max 100 (min minImpactThreshold 50000)

/-- Segments of the `anomaly_detection` SQL template
(`registerAnomalyDetectionTool`, `src/tools/anomaly-detection.ts`),
instantiated at the default sensitivity `medium`
(`change_threshold = 0.25`, `min_spend = 500`, `min_conversions = 5`, and
the platform targets 50/25/25/40, rendered as JavaScript renders them — all
numeric products are exact at this sensitivity), split at the interpolation
points; `anomalyDetectionQueryMedium` concatenates them in source order. -/
def anomalySql1 : String :=
  "\n-- Anomaly Detection Analysis - Performance Pattern Detection\n-- Identifies unusual patterns and performance shifts requiring investigation\n-- Sensitivity: medium (25% threshold)\n\nWITH \n-- Step 1: Current period performance (last 7 days)\ncurrent_period AS (\n  SELECT\n    platform,\n    country,\n    campaign_objective,\n    campaign_id,\n    campaign,\n    SUM(spend) as spend_current,\n    SUM(conversions) as conversions_current,\n    "

def anomalySql2 : String := " as cpa_current,\n    "

def anomalySql3 : String := " as ctr_current,\n    "

def anomalySql4 : String :=
  " as cvr_current,\n    COUNT(DISTINCT date) as active_days_current\n  FROM "

def anomalySql5 : String := "\n  WHERE \n    "

def anomalySql6 : String := "\n    AND "

def anomalySql7 : String :=
  "\n    AND spend > 0\n  GROUP BY platform, country, campaign_objective, campaign_id, campaign\n),\n\n"

def anomalySql8 : String :=
  "-- Step 2: Comparison period performance (7-14 days ago)\ncomparison_period AS (\n  SELECT\n    platform,\n    country,\n    campaign_objective,\n    campaign_id,\n    campaign,\n    SUM(spend) as spend_comparison,\n    SUM(conversions) as conversions_comparison,\n    "

def anomalySql9 : String := " as cpa_comparison,\n    "

def anomalySql10 : String := " as ctr_comparison,\n    "

def anomalySql11 : String :=
  " as cvr_comparison,\n    COUNT(DISTINCT date) as active_days_comparison\n  FROM "

def anomalySql12 : String :=
  "-- Step 3: Campaign-level anomaly detection\ncampaign_anomalies AS (\n  SELECT\n    cp.platform,\n    cp.country,\n    cp.campaign_objective,\n    cp.campaign_id,\n    cp.campaign,\n    cp.spend_current,\n    cp.conversions_current,\n    cp.cpa_current,\n    cp.ctr_current,\n    cp.cvr_current,\n    comp.spend_comparison,\n    comp.conversions_comparison,\n    comp.cpa_comparison,\n    comp.ctr_comparison,\n    comp.cvr_comparison,\n    \n    -- Platform targets from settings\n    CASE cp.platform \n      WHEN \x27Meta\x27 THEN 50\n      WHEN \x27Google\x27 THEN 25\n      WHEN \x27Bing\x27 THEN 25\n      ELSE 40\n    END as target_cpa,\n    \n"

def anomalySql13 : String :=
  "    -- Calculate changes safely\n    CASE \n      WHEN comp.cpa_comparison IS NOT NULL AND comp.cpa_comparison > 0 THEN\n        (cp.cpa_current - comp.cpa_comparison) / comp.cpa_comparison\n      ELSE NULL\n    END as cpa_change_pct,\n    \n    CASE \n      WHEN comp.ctr_comparison IS NOT NULL AND comp.ctr_comparison > 0 THEN\n        (cp.ctr_current - comp.ctr_comparison) / comp.ctr_comparison\n      ELSE NULL\n    END as ctr_change_pct,\n    \n    CASE \n      WHEN comp.cvr_comparison IS NOT NULL AND comp.cvr_comparison > 0 THEN\n        (cp.cvr_current - comp.cvr_comparison) / comp.cvr_comparison\n      ELSE NULL\n    END as cvr_change_pct,\n    \n    CASE \n      WHEN comp.spend_comparison IS NOT NULL AND comp.spend_comparison > 0 THEN\n        (cp.spend_current - comp.spend_comparison) / comp.spend_comparison\n      ELSE NULL\n    END as spend_change_pct,\n    \n"

def anomalySql14 : String :=
  "    -- Confidence scoring using settings\n    CASE\n      WHEN cp.spend_current >= 2000 AND cp.conversions_current >= 15 THEN \x27HIGH\x27\n      WHEN cp.spend_current >= 1000 AND cp.conversions_current >= 10 THEN \x27MEDIUM\x27\n      WHEN cp.spend_current >= 500 AND cp.conversions_current >= 5 THEN \x27LOW\x27\n      ELSE \x27INSUFFICIENT\x27\n    END as confidence_level,\n    \n"

def anomalySql15 : String :=
  "    -- Excess cost calculation using settings\n    CASE \n      WHEN cp.cpa_current > (CASE cp.platform \n        WHEN \x27Meta\x27 THEN 50\n        WHEN \x27Google\x27 THEN 25\n        WHEN \x27Bing\x27 THEN 25\n        ELSE 40\n      END) THEN\n        (cp.cpa_current - (CASE cp.platform \n          WHEN \x27Meta\x27 THEN 50\n          WHEN \x27Google\x27 THEN 25\n          WHEN \x27Bing\x27 THEN 25\n          ELSE 40\n        END)) * cp.conversions_current\n      ELSE 0\n    END as excess_cost\n    \n  FROM current_period cp\n  LEFT JOIN comparison_period comp \n    ON cp.campaign_id = comp.campaign_id\n    AND cp.platform = comp.platform\n    AND cp.country = comp.country\n  "

def anomalySql16 : String := "WHERE cp.spend_current >= "

def anomalySql17 : String := "\n),\n\n"

def anomalySql18 : String :=
  "-- Step 4: Regional anomaly patterns\nregional_anomalies AS (\n  SELECT\n    platform,\n    country,\n    SUM(spend_current) as total_spend_current,\n    SUM(conversions_current) as total_conversions_current,\n    "

def anomalySql19 : String :=
  " as blended_cpa_current,\n    SUM(spend_comparison) as total_spend_comparison,\n    SUM(conversions_comparison) as total_conversions_comparison,\n    "

def anomalySql20 : String :=
  " as blended_cpa_comparison,\n    \n    -- Regional change calculation\n    CASE \n      WHEN "

def anomalySql21 : String := " IS NOT NULL \n           AND "

def anomalySql22 : String := " > 0 THEN\n        ("

def anomalySql23 : String := " - \n         "

def anomalySql24 : String := ") /\n        "

def anomalySql25 : String :=
  "\n      ELSE NULL\n    END as regional_cpa_change,\n    \n    -- Campaign distribution\n    COUNT(*) as campaign_count,\n    COUNT(CASE WHEN confidence_level = \x27HIGH\x27 THEN 1 END) as high_confidence_campaigns,\n    COUNT(CASE WHEN ABS(COALESCE(cpa_change_pct, 0)) >= 0.25 THEN 1 END) as volatile_campaigns,\n    SUM(excess_cost) as total_excess_cost\n    \n  FROM campaign_anomalies\n  WHERE confidence_level != \x27INSUFFICIENT\x27\n  GROUP BY platform, country\n),\n\n"

def anomalySql26 : String :=
  "-- Step 5: Pre-filter anomalies to avoid LIMIT in UNION\nsignificant_campaign_anomalies AS (\n  SELECT *\n  FROM campaign_anomalies\n  WHERE confidence_level != \x27INSUFFICIENT\x27\n    AND (\n      ABS(COALESCE(cpa_change_pct, 0)) >= 0.25\n      OR ABS(COALESCE(ctr_change_pct, 0)) >= 0.25\n      OR ABS(COALESCE(cvr_change_pct, 0)) >= 0.25\n      OR ABS(COALESCE(spend_change_pct, 0)) >= 0.5\n      OR excess_cost >= 500\n    )\n  ORDER BY \n    CASE \n      WHEN excess_cost > 0 THEN excess_cost\n      ELSE ABS(COALESCE(cpa_change_pct, 0)) * spend_current\n    END DESC\n  LIMIT 15\n),\n\nsignificant_regional_anomalies AS (\n  SELECT *\n  FROM regional_anomalies\n  WHERE total_spend_current >= "

def anomalySql27 : String :=
  "\n    AND (\n      ABS(COALESCE(regional_cpa_change, 0)) >= 0.25\n      OR volatile_campaigns >= 2\n      OR total_excess_cost >= 1000\n    )\n  ORDER BY \n    CASE \n      WHEN total_excess_cost > 0 THEN total_excess_cost\n      ELSE ABS(COALESCE(regional_cpa_change, 0)) * total_spend_current\n    END DESC\n  LIMIT 10\n)\n\n"

def anomalySql28 : String :=
  "-- Output 1: Anomaly Summary\nSELECT \n  \x27ANOMALY_SUMMARY\x27 as section,\n  JSON_OBJECT(\n    \x27detection_sensitivity\x27, \x27medium\x27,\n    \x27change_threshold_pct\x27, 25,\n    \x27platforms_analyzed\x27, ARRAY["

def anomalySql29 : String := "],\n    \x27countries_analyzed\x27, ARRAY["

def anomalySql30 : String := "],\n    \x27min_impact_threshold\x27, "

def anomalySql31 : String :=
  ",\n    \x27total_campaign_anomalies\x27, (SELECT COUNT(*) FROM significant_campaign_anomalies),\n    \x27total_regional_anomalies\x27, (SELECT COUNT(*) FROM significant_regional_anomalies),\n    \x27total_excess_cost\x27, ROUND((SELECT SUM(excess_cost) FROM significant_campaign_anomalies), 2)\n  ) as summary_data\n\nUNION ALL\n\n"

def anomalySql32 : String :=
  "-- Output 2: Campaign-Level Anomalies\nSELECT \n  \x27CAMPAIGN_ANOMALIES\x27 as section,\n  JSON_OBJECT(\n    \x27significant_campaign_changes\x27, ARRAY_AGG(\n      JSON_OBJECT(\n        \x27campaign_name\x27, SUBSTR(campaign, 1, 80),\n        \x27platform\x27, platform,\n        \x27country\x27, country,\n        \x27campaign_objective\x27, campaign_objective,\n        \x27current_spend\x27, ROUND(spend_current, 2),\n        \x27current_conversions\x27, conversions_current,\n        \x27current_cpa\x27, ROUND(cpa_current, 2),\n        \x27target_cpa\x27, target_cpa,\n        \x27cpa_change_pct\x27, ROUND(COALESCE(cpa_change_pct, 0) * 100, 1),\n        \x27ctr_change_pct\x27, ROUND(COALESCE(ctr_change_pct, 0) * 100, 1),\n        \x27cvr_change_pct\x27, ROUND(COALESCE(cvr_change_pct, 0) * 100, 1),\n        \x27spend_change_pct\x27, ROUND(COALESCE(spend_change_pct, 0) * 100, 1),\n"

def anomalySql33 : String :=
  "        \x27confidence_level\x27, confidence_level,\n        \x27excess_cost\x27, ROUND(excess_cost, 2),\n        \x27anomaly_type\x27, CASE \n          WHEN ABS(COALESCE(cpa_change_pct, 0)) >= 0.25 THEN \x27CPA_SHIFT\x27\n          WHEN ABS(COALESCE(ctr_change_pct, 0)) >= 0.25 THEN \x27CTR_SHIFT\x27\n          WHEN ABS(COALESCE(cvr_change_pct, 0)) >= 0.25 THEN \x27CVR_SHIFT\x27\n          WHEN ABS(COALESCE(spend_change_pct, 0)) >= 0.5 THEN \x27SPEND_SHIFT\x27\n          WHEN excess_cost >= 500 THEN \x27COST_OVERRUN\x27\n          ELSE \x27MULTIPLE_SIGNALS\x27\n        END\n      ) ORDER BY \n        CASE \n          WHEN excess_cost > 0 THEN excess_cost\n          ELSE ABS(COALESCE(cpa_change_pct, 0)) * spend_current\n        END DESC\n    )\n  ) as summary_data\nFROM significant_campaign_anomalies\n\nUNION ALL\n\n"

def anomalySql34 : String :=
  "-- Output 3: Regional Pattern Anomalies\nSELECT \n  \x27REGIONAL_ANOMALIES\x27 as section,\n  JSON_OBJECT(\n    \x27regional_pattern_changes\x27, ARRAY_AGG(\n      JSON_OBJECT(\n        \x27platform\x27, platform,\n        \x27country\x27, country,\n        \x27total_spend_current\x27, ROUND(total_spend_current, 2),\n        \x27total_conversions_current\x27, total_conversions_current,\n        \x27blended_cpa_current\x27, ROUND(blended_cpa_current, 2),\n        \x27blended_cpa_comparison\x27, ROUND(COALESCE(blended_cpa_comparison, 0), 2),\n        \x27regional_cpa_change_pct\x27, ROUND(COALESCE(regional_cpa_change, 0) * 100, 1),\n        \x27campaign_count\x27, campaign_count,\n        \x27high_confidence_campaigns\x27, high_confidence_campaigns,\n        \x27volatile_campaigns\x27, volatile_campaigns,\n"

def anomalySql35 : String :=
  "        \x27total_excess_cost\x27, ROUND(total_excess_cost, 2),\n        \x27pattern_type\x27, CASE \n          WHEN volatile_campaigns >= campaign_count * 0.5 THEN \x27WIDESPREAD_VOLATILITY\x27\n          WHEN ABS(COALESCE(regional_cpa_change, 0)) >= 0.375 THEN \x27MAJOR_SHIFT\x27\n          WHEN total_excess_cost >= 2000 THEN \x27HIGH_COST_IMPACT\x27\n          ELSE \x27NOTABLE_CHANGE\x27\n        END\n      ) ORDER BY \n        CASE \n          WHEN total_excess_cost > 0 THEN total_excess_cost\n          ELSE ABS(COALESCE(regional_cpa_change, 0)) * total_spend_current\n        END DESC\n    )\n  ) as summary_data\nFROM significant_regional_anomalies\n\nORDER BY section;\n"

/-- The SQL text assembled by the `anomaly_detection` tool at the default
sensitivity `medium`: platforms and countries are cleaned with
`validateAndCleanInput` and the impact threshold is clamped with
`safeMinImpact`, exactly as in the handler
(`registerAnomalyDetectionTool`, `src/tools/anomaly-detection.ts`). -/
def anomalyDetectionQueryMedium (platforms countries : List String)
    (minImpactThreshold : Int) : String :=
  let cleanPlatforms := validateAndCleanInputList platforms
  let cleanCountries := validateAndCleanInputList countries
  let safeMin := safeMinImpact minImpactThreshold
  let platformFilter := createInClause cleanPlatforms "platform"
  let countryFilter := createInClause cleanCountries "country"
  let cpaCur := safeCpaCalculation "SUM(spend_current)" "SUM(conversions_current)"
  let cpaComp := safeCpaCalculation "SUM(spend_comparison)" "SUM(conversions_comparison)"
  let platformArr := joinSep ", " (cleanPlatforms.map (fun p => "\x27" ++ escapeQuotesStr p ++ "\x27"))
  let countryArr := joinSep ", " (cleanCountries.map (fun c => "\x27" ++ escapeQuotesStr c ++ "\x27"))
  anomalySql1 ++ safeCpaCalculation "SUM(spend)" "SUM(conversions)" ++ anomalySql2 ++
    safeCtrCalculation "SUM(clicks)" "SUM(impressions)" ++ anomalySql3 ++
    safeCvrCalculation "SUM(conversions)" "SUM(clicks)" ++ anomalySql4 ++
    BLENDED_SUMMARY_TABLE ++ anomalySql5 ++ buildDateFilter 7 none ++ anomalySql6 ++
    platformFilter ++ anomalySql6 ++ countryFilter ++ anomalySql7 ++
    anomalySql8 ++ safeCpaCalculation "SUM(spend)" "SUM(conversions)" ++ anomalySql9 ++
    safeCtrCalculation "SUM(clicks)" "SUM(impressions)" ++ anomalySql10 ++
    safeCvrCalculation "SUM(conversions)" "SUM(clicks)" ++ anomalySql11 ++
    BLENDED_SUMMARY_TABLE ++ anomalySql5 ++ buildComparisonDateFilter 7 14 none ++ anomalySql6 ++
    platformFilter ++ anomalySql6 ++ countryFilter ++ anomalySql7 ++
    anomalySql12 ++ anomalySql13 ++ anomalySql14 ++ anomalySql15 ++ anomalySql16 ++
    toString safeMin ++ anomalySql17 ++
    anomalySql18 ++ cpaCur ++ anomalySql19 ++ cpaComp ++ anomalySql20 ++
    cpaComp ++ anomalySql21 ++ cpaComp ++ anomalySql22 ++ cpaCur ++ anomalySql23 ++
    cpaComp ++ anomalySql24 ++ cpaComp ++ anomalySql25 ++
    anomalySql26 ++ toString safeMin ++ anomalySql27 ++
    anomalySql28 ++ platformArr ++ anomalySql29 ++ countryArr ++ anomalySql30 ++
    toString safeMin ++ anomalySql31 ++ anomalySql32 ++ anomalySql33 ++
    anomalySql34 ++ anomalySql35

/-- C4 counterexample: the caller-supplied `min_spend` threshold of the
creative-analysis tool is interpolated into the SQL with no clamping at
all — the input 99999 appears verbatim in the generated query (exhibited by
an explicit decomposition of the query text), well outside the
[100, 50000] range the claim cites — so not every caller-supplied numeric
threshold of every tool is clamped before interpolation. -/
theorem claim_C4_counterexample :
    ∃ a b : List Char,
      (creativeAnalysisQuery .d14 ["US", "AU", "UK"] 99999 .cpa).data =
        a ++ ("99999 as min_spend_threshold").data ++ b := by
  refine ⟨(creativeSql1 ++ dateRangeDaysStr .d14 ++ creativeSql2 ++
      jsonStringifyArr ["US", "AU", "UK"] ++ creativeSql3).data,
    (creativeSql5 ++ sortByStr .cpa ++ creativeSql6 ++ creativeSql7 ++ creativeSql8 ++
      creativeSql9 ++ creativeSql10 ++ creativeSql11 ++ sortByStr .cpa ++ creativeSql12 ++
      creativeSql13 ++ creativeSql14 ++ creativeSql15 ++ creativeSql16 ++ creativeSql17 ++
      creativeSql18 ++ creativeSql16 ++ creativeSql15 ++ creativeSql16 ++ creativeSql19).data,
    ?_⟩
  have h99 : (("99999 as min_spend_threshold" : String)).data =
      (toString (99999 : Nat)).data ++ creativeSql4.data := by decide
  rw [h99]
  simp only [creativeAnalysisQuery, String.data_append, List.append_assoc]

/-- C4 (amended): anomaly_detection clamps `min_impact_threshold` into
[100, 50000] before interpolation (in-range values pass through, and the
input 99999 is interpolated as 50000, exhibited by a decomposition of the
generated query), but creative_analysis interpolates its `min_spend`
threshold unclamped. -/
theorem claim_C4_amended_clamping :
    (∀ x : Int, 100 ≤ safeMinImpact x ∧ safeMinImpact x ≤ 50000) ∧
    (∀ x : Int, 100 ≤ x → x ≤ 50000 → safeMinImpact x = x) ∧
    safeMinImpact 99999 = 50000 ∧
    (∃ a b : List Char,
      (anomalyDetectionQueryMedium ["Meta", "Google", "Bing"] ["US", "AU", "UK"] 99999).data =
        a ++ ("WHERE cp.spend_current >= 50000").data ++ b) := by
  refine ⟨?_, ?_, rfl, ?_⟩
  · intro x
    unfold safeMinImpact
    constructor
    · exact le_max_left 100 _
    · rcases le_total x 50000 with h | h
      · rw [min_eq_left h]
        rcases le_total 100 x with h2 | h2
        · rw [max_eq_right h2]
          exact h
        · rw [max_eq_left h2]
          omega
      · rw [min_eq_right h]
        decide
  · intro x h1 h2
    unfold safeMinImpact
    rw [min_eq_left h2, max_eq_right h1]
  · refine ⟨(anomalySql1 ++ safeCpaCalculation "SUM(spend)" "SUM(conversions)" ++ anomalySql2 ++
      safeCtrCalculation "SUM(clicks)" "SUM(impressions)" ++ anomalySql3 ++
      safeCvrCalculation "SUM(conversions)" "SUM(clicks)" ++ anomalySql4 ++
      BLENDED_SUMMARY_TABLE ++ anomalySql5 ++ buildDateFilter 7 none ++ anomalySql6 ++
      createInClause (validateAndCleanInputList ["Meta", "Google", "Bing"]) "platform" ++
      anomalySql6 ++ createInClause (validateAndCleanInputList ["US", "AU", "UK"]) "country" ++
      anomalySql7 ++ anomalySql8 ++ safeCpaCalculation "SUM(spend)" "SUM(conversions)" ++
      anomalySql9 ++ safeCtrCalculation "SUM(clicks)" "SUM(impressions)" ++ anomalySql10 ++
      safeCvrCalculation "SUM(conversions)" "SUM(clicks)" ++ anomalySql11 ++
      BLENDED_SUMMARY_TABLE ++ anomalySql5 ++ buildComparisonDateFilter 7 14 none ++ anomalySql6 ++
      createInClause (validateAndCleanInputList ["Meta", "Google", "Bing"]) "platform" ++
      anomalySql6 ++ createInClause (validateAndCleanInputList ["US", "AU", "UK"]) "country" ++
      anomalySql7 ++ anomalySql12 ++ anomalySql13 ++ anomalySql14 ++ anomalySql15).data,
      (anomalySql17 ++ anomalySql18 ++
        safeCpaCalculation "SUM(spend_current)" "SUM(conversions_current)" ++ anomalySql19 ++
        safeCpaCalculation "SUM(spend_comparison)" "SUM(conversions_comparison)" ++ anomalySql20 ++
        safeCpaCalculation "SUM(spend_comparison)" "SUM(conversions_comparison)" ++ anomalySql21 ++
        safeCpaCalculation "SUM(spend_comparison)" "SUM(conversions_comparison)" ++ anomalySql22 ++
        safeCpaCalculation "SUM(spend_current)" "SUM(conversions_current)" ++ anomalySql23 ++
        safeCpaCalculation "SUM(spend_comparison)" "SUM(conversions_comparison)" ++ anomalySql24 ++
        safeCpaCalculation "SUM(spend_comparison)" "SUM(conversions_comparison)" ++ anomalySql25 ++
        anomalySql26 ++ toString (safeMinImpact 99999) ++ anomalySql27 ++ anomalySql28 ++
        joinSep ", " ((validateAndCleanInputList ["Meta", "Google", "Bing"]).map
          (fun p => "\x27" ++ escapeQuotesStr p ++ "\x27")) ++ anomalySql29 ++
        joinSep ", " ((validateAndCleanInputList ["US", "AU", "UK"]).map
          (fun c => "\x27" ++ escapeQuotesStr c ++ "\x27")) ++ anomalySql30 ++
        toString (safeMinImpact 99999) ++ anomalySql31 ++ anomalySql32 ++ anomalySql33 ++
        anomalySql34 ++ anomalySql35).data, ?_⟩
    have h50 : (("WHERE cp.spend_current >= 50000" : String)).data =
        anomalySql16.data ++ (toString (safeMinImpact 99999)).data := by decide
    rw [h50]
    simp only [anomalyDetectionQueryMedium, String.data_append, List.append_assoc]

/-- Witness for the amended C4 at concrete thresholds. -/
theorem claim_C4_amended_clamping_witness :
    ((100 : Int) ≤ safeMinImpact 99999 ∧ safeMinImpact 99999 ≤ 50000) ∧
    safeMinImpact 20000 = 20000 :=
  ⟨claim_C4_amended_clamping.1 99999,
    claim_C4_amended_clamping.2.1 20000 (by decide) (by decide)⟩

/-- C8: the claim that every report assembler caps rows only in pre-filter
CTEs and never places a LIMIT inside an individual UNION ALL branch is
violated by the creative-analysis assembler: its generated SQL decomposes
as text containing `ORDER BY concept_cpa ASC` + `LIMIT 8` strictly between
two `UNION ALL` separators of the final query (the TOP_CONCEPTS branch),
contradicting the rule documented in the repository itself
(`-- Step 5: Pre-filter anomalies to avoid LIMIT in UNION`,
`DON'T put LIMIT on individual SELECT statements within UNION ALL`). -/
theorem claim_C8_limit_inside_union_branch :
    ∃ a b c d : List Char,
      (creativeAnalysisQuery .d14 ["US", "AU", "UK"] 300 .cpa).data =
        a ++ ("UNION ALL").data ++ b ++
          ("ORDER BY concept_cpa ASC\nLIMIT 8").data ++ c ++ ("UNION ALL").data ++ d := by
  refine ⟨(creativeSql1 ++ dateRangeDaysStr .d14 ++ creativeSql2 ++
      jsonStringifyArr ["US", "AU", "UK"] ++ creativeSql3 ++ toString (300 : Nat) ++
      creativeSql4 ++ creativeSql5 ++ sortByStr .cpa ++ creativeSql6 ++ creativeSql7 ++
      creativeSql8 ++ creativeSql9 ++ creativeSql10 ++ creativeSql11 ++ sortByStr .cpa ++
      creativeSql12 ++ creativeSql13 ++ creativeSql14).data,
    (creativeSql16 ++ creativeSql17).data, creativeSql16.data,
    (creativeSql16 ++ creativeSql19).data, ?_⟩
  simp only [creativeAnalysisQuery, creativeSql15, creativeSql16, creativeSql18,
    String.data_append, List.append_assoc]

end SqlModel
